import Mathlib

/-!
Verification of the mcp-fs repository: a shallow embedding of the toolhost's
filesystem tool handlers (src/server.ts), the session table over the HTTP
endpoint, and the driver's tool-call resolution loop (src/client.ts),
with theorems settling the specification's claims about them.
-/

set_option maxRecDepth 4000

namespace McpFs

/-! ## Tool results

Every tool handler returns the same shape: a list of content blocks
(each textual, in this server) plus an `isError` flag. -/

/-- A content block of a Tool Result (`{ type: "text", text }` in the source;
other media types are possible in principle). -/
inductive ContentBlock where
  | text (s : String)
  | other
deriving DecidableEq

/-- The Tool Result envelope `{ content, isError? }` returned by every handler. -/
structure ToolResult where
  content : List ContentBlock
  isError : Bool
deriving DecidableEq

/-- A single-text-block error-flagged result. -/
def errText (s : String) : ToolResult := ⟨[ContentBlock.text s], true⟩

/-- A single-text-block success result. -/
def okText (s : String) : ToolResult := ⟨[ContentBlock.text s], false⟩

/-! ## String primitives

Kernel-computable embeddings of the JavaScript string operations the
handlers use: `String.prototype.trim`, `split("/")` and `join("/")`. -/

/-- `String.prototype.trim`: strip leading and trailing whitespace. -/
def jsTrim (s : String) : String :=
  ⟨((s.data.dropWhile Char.isWhitespace).reverse.dropWhile Char.isWhitespace).reverse⟩

/-- `split("/")` on the character list: split at every `'/'`, keeping empty
segments, so that the empty input yields one empty segment as in JS. -/
def splitSlashChars : List Char → List (List Char)
  | [] => [[]]
  | c :: rest =>
      let r := splitSlashChars rest
      if c = '/' then [] :: r
      else
        match r with
        | [] => [[c]]
        | h :: t => (c :: h) :: t

/-- `path.split("/")`. -/
def splitSlash (s : String) : List String :=
  (splitSlashChars s.data).map (fun cs => ⟨cs⟩)

/-- `parts.join("/")`. -/
def joinSlash : List String → String
  | [] => ""
  | [x] => x
  | x :: xs => x ++ "/" ++ joinSlash xs

/-- Prefix test on character lists (for the directory-listing model). -/
def listStartsWith : List Char → List Char → Bool
  | [], _ => true
  | _ :: _, [] => false
  | a :: as, b :: bs => a = b && listStartsWith as bs

/-! ## Filesystem state

The handlers' effects on disk (`fs/promises` calls) are embedded as explicit
state passing over a finite map from path strings to entries. -/

/-- A filesystem entry: a regular file with string content, or a directory. -/
inductive FsEntry where
  | file (content : String)
  | dir
deriving DecidableEq

/-- The filesystem as an association list from path to entry
(first binding wins, mirroring overwrite-on-assignment). -/
abbrev FileSystem := List (String × FsEntry)

/-- Look up the entry at a path (`fs.access` / `fs.stat` succeed iff this is `some`). -/
def FileSystem.lookup : FileSystem → String → Option FsEntry
  | [], _ => none
  | (q, e) :: rest, p => if q = p then some e else FileSystem.lookup rest p

/-- `fs.writeFile`: bind `p` to a file with content `c`, replacing any old binding. -/
def FileSystem.insert (fs : FileSystem) (p : String) (e : FsEntry) : FileSystem :=
  (p, e) :: fs.filter (fun q => q.1 != p)

/-- `fs.unlink`: remove the binding at `p`. -/
def FileSystem.erase (fs : FileSystem) (p : String) : FileSystem :=
  fs.filter (fun q => q.1 != p)

/-- Names of the direct children of directory `d` (what `fs.readdir d` returns). -/
def FileSystem.childrenOf (fs : FileSystem) (d : String) : List String :=
  fs.filterMap (fun q =>
    let pre := (d ++ "/").data
    let cs := q.1.data
    if listStartsWith pre cs then
      let rest := cs.drop pre.length
      if rest ≠ [] ∧ ¬ rest.any (fun c => c = '/') then some ⟨rest⟩ else none
    else none)

/-! ## Filesystem tool handlers (src/server.ts)

Each handler takes its (post-schema) arguments and the filesystem state and
returns the Tool Result together with the new state.  A `path` or `content`
argument that may be absent at the JS level is an `Option String`; the JS
guard `!path || typeof path !== "string" || path.trim() === ""` becomes the
test against `none`, `""`, and blank-after-trim. -/

/-- The JS truthiness/blank guard on `path` used by the handlers:
`!path || typeof path !== "string" || path.trim() === ""`. -/
def pathBad : Option String → Bool
  | none => true
  | some p => p = "" ∨ jsTrim p = ""

/-- Tool `updateFile`: overwrite an existing file.  Requires the target to
exist (`fs.access`); writing onto a directory fails at the `fs.writeFile`
call and is caught as a generic write error. -/
def updateFile (path? : Option String) (content : String) (fs : FileSystem) :
    ToolResult × FileSystem :=
  if pathBad path? then
    (errText "❌ 'path' must be a non-empty string.", fs)
  else
    let path := path?.getD ""
    match fs.lookup path with
    | none =>
        (errText ("❌ File not found at " ++ path ++ ". Cannot update non-existent file."), fs)
    | some FsEntry.dir =>
        (errText ("❌ Failed to update file: EISDIR: illegal operation on a directory, open '"
            ++ path ++ "'"), fs)
    | some (FsEntry.file _) =>
        (okText ("✅ File successfully updated at " ++ path ++ "."),
          fs.insert path (FsEntry.file content))

/-- Tool `deleteFile`: delete a file; refuses directories. -/
def deleteFile (path? : Option String) (fs : FileSystem) : ToolResult × FileSystem :=
  if pathBad path? then
    (errText "❌ 'path' must be a non-empty string.", fs)
  else
    let path := path?.getD ""
    match fs.lookup path with
    | none => (errText ("❌ File not found at " ++ path ++ "."), fs)
    | some FsEntry.dir =>
        (errText ("⚠️ '" ++ path
            ++ "' is a directory. Use a directory-specific tool to delete folders."), fs)
    | some (FsEntry.file _) =>
        (okText ("🗑️ File successfully deleted: " ++ path), fs.erase path)

/-- Tool `readFile`: read the file's content; reading a directory fails
at `fs.readFile` with EISDIR. -/
def readFile (path? : Option String) (fs : FileSystem) : ToolResult × FileSystem :=
  if pathBad path? then
    (errText "❌ 'path' must be a non-empty string.", fs)
  else
    let path := path?.getD ""
    match fs.lookup path with
    | none => (errText ("❌ File not found at " ++ path ++ "."), fs)
    | some FsEntry.dir =>
        (errText ("❌ Error reading file: EISDIR: illegal operation on a directory, read"), fs)
    | some (FsEntry.file c) =>
        (okText ("📄 Content of " ++ path ++ ":\n\n``` is \n" ++ c ++ "\n```"), fs)

/-- The parent-directory computation of `createFile`,
`path.split("/").slice(0, -1).join("/") || "."`; also the containing
directory whose existence the modelled `fs.appendFile` and `fs.writeFile`
need when creating a file. -/
def parentDir (path : String) : String :=
  let j := joinSlash (splitSlash path).dropLast
  if j = "" then "." else j

/-- Tool `appendToFile`: `fs.appendFile path (content + "\n")` — appends to
an existing file; creates the file only when its containing directory
exists, `fs.appendFile` otherwise failing with ENOENT (parent absent) or
ENOTDIR (parent is a regular file), caught into the handler's error branch.
The success message reports `content.length`, the count before the added
newline. -/
def appendToFile (path? : Option String) (content : String) (fs : FileSystem) :
    ToolResult × FileSystem :=
  if pathBad path? then
    (errText "❌ 'path' must be a non-empty string.", fs)
  else
    let path := path?.getD ""
    let okMsg := "✅ Content appended to " ++ path ++ " ("
        ++ toString content.length ++ " characters)."
    match fs.lookup path with
    | some FsEntry.dir =>
        (errText ("❌ Failed to append to file: EISDIR: illegal operation on a directory, open '"
            ++ path ++ "'"), fs)
    | some (FsEntry.file old) =>
        (okText okMsg, fs.insert path (FsEntry.file (old ++ content ++ "\n")))
    | none =>
        match fs.lookup (parentDir path) with
        | some FsEntry.dir =>
            (okText okMsg, fs.insert path (FsEntry.file (content ++ "\n")))
        | some (FsEntry.file _) =>
            (errText ("❌ Failed to append to file: ENOTDIR: not a directory, open '"
                ++ path ++ "'"), fs)
        | none =>
            (errText ("❌ Failed to append to file: ENOENT: no such file or directory, open '"
                ++ path ++ "'"), fs)

/-- The default content substituted by `createFile` for a missing or blank
`content` argument. -/
def defaultCreateContent : String := "📄 Default file content generated by the MCP tool."

/-- Tool `createFile`: refuses to overwrite an existing target and refuses
when the parent directory does not exist; a missing/blank `content` is
replaced by `defaultCreateContent` before writing.  When `fs.access` on the
parent succeeds but the parent is a regular file, the `fs.writeFile` call
fails with ENOTDIR and is caught into the handler's unexpected-error
branch. -/
def createFile (path? : Option String) (content? : Option String) (fs : FileSystem) :
    ToolResult × FileSystem :=
  if pathBad path? then
    (errText "❌ 'path' must be a non-empty string.", fs)
  else
    let path := path?.getD ""
    let finalContent :=
      match content? with
      | some c => if jsTrim c ≠ "" then c else defaultCreateContent
      | none => defaultCreateContent
    if (fs.lookup path).isSome then
      (errText ("⚠️ A file already exists at " ++ path
          ++ ". File creation aborted to prevent overwrite."), fs)
    else
      match fs.lookup (parentDir path) with
      | none =>
          (errText ("❌ Parent directory \"" ++ parentDir path ++ "\" does not exist."), fs)
      | some (FsEntry.file _) =>
          (errText ("❌ Unexpected error while creating file: ENOTDIR: not a directory, open '"
              ++ path ++ "'"), fs)
      | some FsEntry.dir =>
          (okText ("✅ File created at " ++ path ++ " with "
              ++ toString finalContent.length ++ " characters."),
            fs.insert path (FsEntry.file finalContent))

/-- Tool `listFiles`: its only argument guard is `typeof path !== "string"`;
a string path — blank or not — goes straight to `fs.readdir`. -/
def listFiles (path? : Option String) (fs : FileSystem) : ToolResult × FileSystem :=
  match path? with
  | none =>
      (errText "❌ Invalid 'path' argument. Must be a string. Received: undefined", fs)
  | some path =>
      match fs.lookup path with
      | some FsEntry.dir =>
          (okText ("📁 Files in " ++ path ++ ": "
              ++ String.intercalate ", " (fs.childrenOf path)), fs)
      | some (FsEntry.file _) =>
          (errText ("⚠️ Error reading directory: ENOTDIR: not a directory, scandir '"
              ++ path ++ "'"), fs)
      | none =>
          (errText ("⚠️ Error reading directory: ENOENT: no such file or directory, scandir '"
              ++ path ++ "'"), fs)

/-! ## Session table and the /mcp endpoint (src/server.ts)

`app.post("/mcp")` either reuses the transport bound to a known
`mcp-session-id` header or builds a fresh `McpServer` (registry) and a fresh
transport, recording the transport in the table under the generated session
identifier.  Transports and registries are modelled by numeric identities
drawn from a freshness counter; the generated session identifier is passed
in explicitly. -/

/-- A session's state: one transport and one Tool Registry binding. -/
structure Session where
  transportId : Nat
  registryId : Nat
deriving DecidableEq

/-- The process-wide server state: the `transports` table plus a freshness
counter for minting transport/registry identities. -/
structure ServerState where
  table : List (String × Session)
  fresh : Nat
deriving DecidableEq

/-- Table lookup, `transports[sessionId]`. -/
def ServerState.lookupSession (st : ServerState) (sid : String) : Option Session :=
  (st.table.find? (fun q => q.1 == sid)).map (fun q => q.2)

/-- The create-new-session branch: a fresh `McpServer` registry and a fresh
transport, recorded in the table under the generated identifier `newSid`
(the `onsessioninitialized` callback's `transports[sid] = transport`). -/
def ServerState.createSession (st : ServerState) (newSid : String) :
    Session × ServerState :=
  let s : Session := ⟨st.fresh, st.fresh⟩
  (s, ⟨(newSid, s) :: st.table, st.fresh + 1⟩)

/-- The `/mcp` POST handler's session resolution:
`if (sessionId && transports[sessionId])` reuse, else create.  `header` is
the `mcp-session-id` header (absent ⇒ `none`; the empty string is falsy in
JS and also creates); `newSid` is the identifier the generator would mint. -/
def handleMcpPost (st : ServerState) (header : Option String) (newSid : String) :
    Session × ServerState :=
  match header with
  | some sid =>
      if sid ≠ "" then
        match st.lookupSession sid with
        | some s => (s, st)
        | none => st.createSession newSid
      else st.createSession newSid
  | none => st.createSession newSid

/-! ## Driver: the tool-call resolution loop (src/client.ts)

One iteration of `main`'s `while (true)` body — the processing of one user
input — is embedded as `runTurn`.  The model endpoint is a function from the
transcript to its reply; `callTool` abstracts `client.callTool`.  The result
is instrumented with the replies obtained from the model and the tool-call
requests actually executed, exactly those the code feeds to
`client.callTool`. -/

/-- A structured tool-call request from the model:
`{ id?, function: { name, arguments } }`. -/
structure ToolCall where
  id : Option String
  name : String
  arguments : String
deriving DecidableEq

/-- One assistant reply from the model endpoint: text content plus
(possibly none) tool-call requests. -/
structure Reply where
  content : String
  tool_calls : List ToolCall
deriving DecidableEq

/-- A transcript message: the roles pushed by the driver. -/
inductive Msg where
  | user (content : String)
  | assistant (content : String)
  | assistantCalls (content : String) (calls : List ToolCall)
  | tool (tool_call_id : String) (content : String)
deriving DecidableEq

/-- The driver's folding of a Tool Result into one string: concatenate the
`text` of every textual content block, ignoring other blocks. -/
def concatText (blocks : List ContentBlock) : String :=
  blocks.foldl (fun acc b => match b with
    | ContentBlock.text s => acc ++ s
    | ContentBlock.other => acc) ""

/-- The tool-result transcript message for one executed request: correlated
by `toolCall.id ?? toolCall.function.name`. -/
def toolMsg (callTool : ToolCall → ToolResult) (tc : ToolCall) : Msg :=
  Msg.tool (tc.id.getD tc.name) (concatText (callTool tc).content)

/-- What one loop iteration of the driver produced: the transcript, the
replies obtained from the model, and the tool-call requests executed. -/
structure TurnResult where
  messages : List Msg
  replies : List Reply
  executed : List ToolCall
deriving DecidableEq

/-- One iteration of the driver's `while` loop on user input `userInput`:
push the user message, query the model; with no tool calls, push the plain
assistant reply; otherwise push the assistant message recording the raw
calls (content empty), execute each call in order pushing its tool-result
message, query the model once more, and push that reply's content as a
plain assistant message. -/
def runTurn (model : List Msg → Reply) (callTool : ToolCall → ToolResult)
    (messages : List Msg) (userInput : String) : TurnResult :=
  let msgs1 := messages ++ [Msg.user userInput]
  let resp := model msgs1
  if resp.tool_calls.isEmpty then
    ⟨msgs1 ++ [Msg.assistant resp.content], [resp], []⟩
  else
    let msgs2 := msgs1 ++ [Msg.assistantCalls "" resp.tool_calls]
    let msgs3 := msgs2 ++ resp.tool_calls.map (toolMsg callTool)
    let finalResponse := model msgs3
    ⟨msgs3 ++ [Msg.assistant finalResponse.content], [resp, finalResponse], resp.tool_calls⟩

/-! ## Toolhost dispatch as seen by the driver -/

/-- A registry entry: a tool name with its handler over opaque arguments. -/
structure ToolEntry where
  name : String
  handler : String → ToolResult

/-- Modelled from the spec: the toolhost-side `dispatch` answering
`client.callTool` lives in the MCP SDK, not under src/.  Per §4.1 and §7 of
the specification, a `name` that is not registered yields `UnknownTool`,
reported as an error-flagged Tool Result on the same channel as every other
tool-level failure — never a thrown fault; a registered name's handler runs
and its Tool Result is returned unmodified, error-flagged or not. -/
def dispatch (registry : List ToolEntry) (name : String) (args : String) : ToolResult :=
  match registry.find? (fun t => t.name == name) with
  | none => errText ("Unknown tool: " ++ name)
  | some t => t.handler args

/-- `client.callTool` routed through the modelled registry dispatch. -/
def callToolVia (registry : List ToolEntry) (tc : ToolCall) : ToolResult :=
  dispatch registry tc.name tc.arguments

/-- The content of the file at `p`, or `""` when there is none. -/
def fileContentAt (fs : FileSystem) (p : String) : String :=
  match fs.lookup p with
  | some (FsEntry.file c) => c
  | _ => ""

/-! ## Concrete fixtures for evaluating the claims -/

/-- A tool-call request carrying a caller-assigned `id`. -/
def tcWithId : ToolCall := ⟨some "call-7", "readFile", "args-a"⟩

/-- A tool-call request with no `id`: correlated by its tool name. -/
def tcNoId : ToolCall := ⟨none, "listFiles", "args-b"⟩

/-- A further tool-call request, used for a reply after tool execution. -/
def tcSecond : ToolCall := ⟨some "call-9", "deleteFile", "args-c"⟩

/-- A reply carrying a two-request batch. -/
def constModel2 : Reply := ⟨"", [tcWithId, tcNoId]⟩

/-- A model endpoint whose first reply (to the one-message transcript)
requests one tool call, and whose reply to any longer transcript requests
another tool call — it never produces a plain answer. -/
def chattyModel : List Msg → Reply := fun msgs =>
  if msgs.length ≤ 1 then ⟨"", [tcWithId]⟩ else ⟨"", [tcSecond]⟩

/-- A stub `client.callTool` that always succeeds with the text `"ok"`. -/
def okStubTool : ToolCall → ToolResult := fun _ => okText "ok"

/-- A one-tool registry, for exercising dispatch on an unknown name. -/
def fsRegistry : List ToolEntry := [⟨"readFile", fun _ => okText "file-content"⟩]

/-- A request naming a tool absent from `fsRegistry`. -/
def tcGhost : ToolCall := ⟨some "g1", "ghostTool", "x"⟩

/-- A request naming the registered tool of `fsRegistry`. -/
def tcRead : ToolCall := ⟨some "g2", "readFile", "y"⟩

/-- A model endpoint that always emits the batch `[tcGhost, tcRead]`. -/
def ghostModel : List Msg → Reply := fun _ => ⟨"", [tcGhost, tcRead]⟩

/-! ## Helper lemmas -/

/-- A path that is not blank after trimming passes the handlers' guard. -/
lemma pathBad_some_false (p : String) (hp : jsTrim p ≠ "") : pathBad (some p) = false := by
  have hp0 : p ≠ "" := by
    intro h
    subst h
    exact hp rfl
  simp [pathBad, hp0, hp]

/-- Looking up a path right after binding it yields the new entry. -/
lemma lookup_insert_self (fs : FileSystem) (p : String) (e : FsEntry) :
    (fs.insert p e).lookup p = some e := by
  simp [FileSystem.insert, FileSystem.lookup]

/-! ## Claim theorems -/

/-- Claim C5, counterexample: the `listFiles` handler, given the
whitespace-only path `" "`, does not report invalid arguments — its guard
only rejects non-strings, so it proceeds to the directory read and returns
that operation's failure instead, even though `" "` is blank by the guard
the other handlers use. -/
theorem listFiles_blank_path_counterexample :
    (listFiles (some " ") []).1 =
      errText "⚠️ Error reading directory: ENOENT: no such file or directory, scandir ' '" ∧
    (listFiles (some " ") []).1 ≠
      errText "❌ Invalid 'path' argument. Must be a string. Received: undefined" ∧
    (listFiles (some " ") []).1 ≠ errText "❌ 'path' must be a non-empty string." ∧
    pathBad (some " ") = true := by
  decide

/-- Claim C5 (amended): `createFile`, `readFile`, `updateFile`,
`appendToFile` and `deleteFile` each reject a missing, empty, or
whitespace-only path with an invalid-arguments Tool Result and leave the
filesystem untouched; `listFiles` does so only for a missing (non-string)
path argument, a blank string path instead reaching the directory read. -/
theorem handlers_reject_blank_path (p? : Option String) (c : String) (c? : Option String)
    (fs : FileSystem) (hbad : pathBad p? = true) :
    updateFile p? c fs = (errText "❌ 'path' must be a non-empty string.", fs) ∧
    deleteFile p? fs = (errText "❌ 'path' must be a non-empty string.", fs) ∧
    readFile p? fs = (errText "❌ 'path' must be a non-empty string.", fs) ∧
    appendToFile p? c fs = (errText "❌ 'path' must be a non-empty string.", fs) ∧
    createFile p? c? fs = (errText "❌ 'path' must be a non-empty string.", fs) ∧
    listFiles none fs =
      (errText "❌ Invalid 'path' argument. Must be a string. Received: undefined", fs) := by
  refine ⟨?_, ?_, ?_, ?_, ?_, ?_⟩ <;>
    simp [updateFile, deleteFile, readFile, appendToFile, createFile, listFiles, hbad]

/-- Claim C5 witness: the amended statement evaluated at the whitespace-only
path `"  "`. -/
theorem handlers_reject_blank_path_witness :
    pathBad (some "  ") = true ∧
    deleteFile (some "  ") [("x", FsEntry.file "v")] =
      (errText "❌ 'path' must be a non-empty string.", [("x", FsEntry.file "v")]) := by
  refine ⟨by decide, ?_⟩
  exact (handlers_reject_blank_path (some "  ") "c" (some "c")
    [("x", FsEntry.file "v")] (by decide)).2.1

/-- Claim C6: `createFile` refuses a path where an entry already exists,
reporting "already exists" and leaving the filesystem (in particular the
existing file's content) unchanged; and refuses a path whose parent
directory does not exist, creating nothing. -/
theorem createFile_refusals (p : String) (c? : Option String) (fs : FileSystem)
    (hp : jsTrim p ≠ "") :
    (∀ e, fs.lookup p = some e →
      createFile (some p) c? fs =
        (errText ("⚠️ A file already exists at " ++ p
            ++ ". File creation aborted to prevent overwrite."), fs)) ∧
    (fs.lookup p = none → fs.lookup (parentDir p) = none →
      createFile (some p) c? fs =
        (errText ("❌ Parent directory \"" ++ parentDir p ++ "\" does not exist."), fs)) := by
  have hguard := pathBad_some_false p hp
  constructor
  · intro e he
    simp [createFile, hguard, he]
  · intro hnone hparent
    simp [createFile, hguard, hnone, hparent]

/-- Claim C6 witness: the refusals evaluated at concrete filesystems — an
existing `./a.txt` is not overwritten and keeps its content, and creation
under the absent directory `./b` is refused. -/
theorem createFile_refusals_witness :
    jsTrim "./a.txt" ≠ "" ∧
    FileSystem.lookup [("./a.txt", FsEntry.file "x"), (".", FsEntry.dir)] "./a.txt" =
      some (FsEntry.file "x") ∧
    createFile (some "./a.txt") (some "y") [("./a.txt", FsEntry.file "x"), (".", FsEntry.dir)] =
      (errText ("⚠️ A file already exists at " ++ "./a.txt"
          ++ ". File creation aborted to prevent overwrite."),
        [("./a.txt", FsEntry.file "x"), (".", FsEntry.dir)]) ∧
    createFile (some "./b/c.txt") (some "y") [] =
      (errText ("❌ Parent directory \"" ++ parentDir "./b/c.txt" ++ "\" does not exist."), []) := by
  refine ⟨by decide, by decide, ?_, ?_⟩
  · exact (createFile_refusals "./a.txt" (some "y")
      [("./a.txt", FsEntry.file "x"), (".", FsEntry.dir)] (by decide)).1
      (FsEntry.file "x") (by decide)
  · exact (createFile_refusals "./b/c.txt" (some "y") [] (by decide)).2
      (by decide) (by decide)

/-- Claim C7: `deleteFile` on a path bound to a directory returns an
error-flagged result whose text says the path is a directory, and the
filesystem — the directory and everything else — is unchanged. -/
theorem deleteFile_directory_refused (p : String) (fs : FileSystem)
    (hp : jsTrim p ≠ "") (hd : fs.lookup p = some FsEntry.dir) :
    deleteFile (some p) fs =
      (errText ("⚠️ '" ++ p
          ++ "' is a directory. Use a directory-specific tool to delete folders."), fs) := by
  have hguard := pathBad_some_false p hp
  simp [deleteFile, hguard, hd]

/-- Claim C7 witness: deleting the directory `./d` is refused and the
filesystem keeps the directory and its contents. -/
theorem deleteFile_directory_refused_witness :
    jsTrim "./d" ≠ "" ∧
    FileSystem.lookup [("./d", FsEntry.dir), ("./d/f.txt", FsEntry.file "v")] "./d" =
      some FsEntry.dir ∧
    deleteFile (some "./d") [("./d", FsEntry.dir), ("./d/f.txt", FsEntry.file "v")] =
      (errText ("⚠️ '" ++ "./d"
          ++ "' is a directory. Use a directory-specific tool to delete folders."),
        [("./d", FsEntry.dir), ("./d/f.txt", FsEntry.file "v")]) := by
  refine ⟨by decide, by decide, ?_⟩
  exact deleteFile_directory_refused "./d"
    [("./d", FsEntry.dir), ("./d/f.txt", FsEntry.file "v")] (by decide) (by decide)

/-- Claim C8: at a path with no existing entry and an existing parent
directory, `createFile` with content `"hello"` succeeds and writes exactly
`"hello"`; `readFile` at that path then succeeds and returns that content. -/
theorem create_then_read_roundtrip (p : String) (fs : FileSystem)
    (hp : jsTrim p ≠ "") (habs : fs.lookup p = none)
    (hparent : fs.lookup (parentDir p) = some FsEntry.dir) :
    ((createFile (some p) (some "hello") fs).1.isError = false) ∧
    ((createFile (some p) (some "hello") fs).2.lookup p = some (FsEntry.file "hello")) ∧
    (readFile (some p) (createFile (some p) (some "hello") fs).2 =
      (okText ("📄 Content of " ++ p ++ ":\n\n``` is \n" ++ "hello" ++ "\n```"),
        (createFile (some p) (some "hello") fs).2)) := by
  have hguard := pathBad_some_false p hp
  have hfc : jsTrim "hello" ≠ "" := by decide
  have hnotsome : (fs.lookup p).isSome = false := by simp [habs]
  have hcreate : createFile (some p) (some "hello") fs =
      (okText ("✅ File created at " ++ p ++ " with "
          ++ toString ("hello" : String).length ++ " characters."),
        fs.insert p (FsEntry.file "hello")) := by
    simp [createFile, hguard, hfc, hnotsome, hparent]
  refine ⟨by rw [hcreate]; rfl, ?_, ?_⟩
  · rw [hcreate]
    exact lookup_insert_self fs p (FsEntry.file "hello")
  · rw [hcreate]
    simp [readFile, hguard, lookup_insert_self]

/-- Claim C8 witness: the round-trip evaluated at `./a.txt` over a
filesystem holding only the directory `.`. -/
theorem create_then_read_roundtrip_witness :
    jsTrim "./a.txt" ≠ "" ∧
    FileSystem.lookup [(".", FsEntry.dir)] "./a.txt" = none ∧
    FileSystem.lookup [(".", FsEntry.dir)] (parentDir "./a.txt") = some FsEntry.dir ∧
    (createFile (some "./a.txt") (some "hello") [(".", FsEntry.dir)]).2.lookup "./a.txt" =
      some (FsEntry.file "hello") := by
  refine ⟨by decide, by decide, by decide, ?_⟩
  exact (create_then_read_roundtrip "./a.txt" [(".", FsEntry.dir)]
    (by decide) (by decide) (by decide)).2.1

/-- Claim C9: when the path checks pass, `createFile` given an absent,
empty, or whitespace-only `content` argument writes the fixed default text
instead — and that default is neither empty nor whitespace-only. -/
theorem createFile_blank_content_default (p : String) (c? : Option String) (fs : FileSystem)
    (hp : jsTrim p ≠ "") (habs : fs.lookup p = none)
    (hparent : fs.lookup (parentDir p) = some FsEntry.dir)
    (hc : c? = none ∨ ∃ c, c? = some c ∧ jsTrim c = "") :
    createFile (some p) c? fs =
      (okText ("✅ File created at " ++ p ++ " with "
          ++ toString defaultCreateContent.length ++ " characters."),
        fs.insert p (FsEntry.file defaultCreateContent)) ∧
    defaultCreateContent ≠ "" ∧ jsTrim defaultCreateContent ≠ "" := by
  have hguard := pathBad_some_false p hp
  have hnotsome : (fs.lookup p).isSome = false := by simp [habs]
  refine ⟨?_, by decide, by decide⟩
  rcases hc with hnone | ⟨c, hcsome, hblank⟩
  · subst hnone
    simp [createFile, hguard, hnotsome, hparent]
  · subst hcsome
    simp [createFile, hguard, hnotsome, hparent, hblank]

/-- Claim C9 witness: the default substitution evaluated for the
whitespace-only content `"   "` at `./a.txt`. -/
theorem createFile_blank_content_default_witness :
    jsTrim "./a.txt" ≠ "" ∧
    FileSystem.lookup [(".", FsEntry.dir)] "./a.txt" = none ∧
    FileSystem.lookup [(".", FsEntry.dir)] (parentDir "./a.txt") = some FsEntry.dir ∧
    jsTrim "   " = "" ∧
    createFile (some "./a.txt") (some "   ") [(".", FsEntry.dir)] =
      (okText ("✅ File created at " ++ "./a.txt" ++ " with "
          ++ toString defaultCreateContent.length ++ " characters."),
        FileSystem.insert [(".", FsEntry.dir)] "./a.txt" (FsEntry.file defaultCreateContent)) := by
  refine ⟨by decide, by decide, by decide, by decide, ?_⟩
  exact (createFile_blank_content_default "./a.txt" (some "   ") [(".", FsEntry.dir)]
    (by decide) (by decide) (by decide) (Or.inr ⟨"   ", rfl, by decide⟩)).1

/-- Claim C10: every invocation of `appendToFile` with path `p` and
content `c` that reports success (result not error-flagged) has written
`c` followed by exactly one newline after the previous content of the file
at `p` (empty when the file did not exist), while the success message
reports the character count of `c` alone. -/
theorem appendToFile_newline_and_count (p c : String) (fs : FileSystem)
    (hok : (appendToFile (some p) c fs).1.isError = false) :
    appendToFile (some p) c fs =
      (okText ("✅ Content appended to " ++ p ++ " ("
          ++ toString c.length ++ " characters)."),
        fs.insert p (FsEntry.file (fileContentAt fs p ++ c ++ "\n"))) := by
  by_cases hguard : pathBad (some p) = true
  · rw [show appendToFile (some p) c fs = (errText "❌ 'path' must be a non-empty string.", fs)
        from by simp [appendToFile, hguard]] at hok
    simp [errText] at hok
  · rw [Bool.not_eq_true] at hguard
    cases h : fs.lookup p with
    | none =>
        cases hpar : fs.lookup (parentDir p) with
        | none =>
            rw [show appendToFile (some p) c fs =
                  (errText ("❌ Failed to append to file: ENOENT: no such file or directory, open '"
                    ++ p ++ "'"), fs) from by simp [appendToFile, hguard, h, hpar]] at hok
            simp [errText] at hok
        | some e =>
            cases e with
            | dir => simp [appendToFile, hguard, h, hpar, fileContentAt]
            | file w =>
                rw [show appendToFile (some p) c fs =
                      (errText ("❌ Failed to append to file: ENOTDIR: not a directory, open '"
                        ++ p ++ "'"), fs) from by simp [appendToFile, hguard, h, hpar]] at hok
                simp [errText] at hok
    | some e =>
        cases e with
        | dir =>
            rw [show appendToFile (some p) c fs =
                  (errText ("❌ Failed to append to file: EISDIR: illegal operation on a directory, open '"
                    ++ p ++ "'"), fs) from by simp [appendToFile, hguard, h]] at hok
            simp [errText] at hok
        | file old => simp [appendToFile, hguard, h, fileContentAt]

/-- Claim C10 witness: appending `"hi"` to a file holding `"a"` reports
success, yields content `"a" ++ "hi" ++ "\n"`, and counts 2 characters. -/
theorem appendToFile_newline_and_count_witness :
    (appendToFile (some "./f") "hi" [("./f", FsEntry.file "a")]).1.isError = false ∧
    appendToFile (some "./f") "hi" [("./f", FsEntry.file "a")] =
      (okText ("✅ Content appended to " ++ "./f" ++ " ("
          ++ toString ("hi" : String).length ++ " characters)."),
        FileSystem.insert [("./f", FsEntry.file "a")] "./f"
          (FsEntry.file (fileContentAt [("./f", FsEntry.file "a")] "./f" ++ "hi" ++ "\n"))) := by
  refine ⟨by decide, ?_⟩
  exact appendToFile_newline_and_count "./f" "hi" [("./f", FsEntry.file "a")] (by decide)

/-- Claim C4: the `/mcp` endpoint reuses the existing session when the
supplied identifier is in the table (leaving all state untouched), and for
an absent or unknown identifier creates a new session — distinct from every
existing one — and records it, never erring; a follow-up request carrying
the freshly returned identifier then reuses that same session without
creating another. -/
theorem session_resolution (st : ServerState) (sid newSid sid2 : String)
    (hn : newSid ≠ "")
    (hfresh : ∀ q ∈ st.table, q.2.transportId < st.fresh) :
    (∀ s, sid ≠ "" → st.lookupSession sid = some s →
        handleMcpPost st (some sid) newSid = (s, st)) ∧
    (st.lookupSession sid = none →
        ((handleMcpPost st (some sid) newSid).2.lookupSession newSid =
            some (handleMcpPost st (some sid) newSid).1) ∧
        (∀ q ∈ st.table, q.2 ≠ (handleMcpPost st (some sid) newSid).1) ∧
        (handleMcpPost (handleMcpPost st (some sid) newSid).2 (some newSid) sid2 =
            ((handleMcpPost st (some sid) newSid).1,
              (handleMcpPost st (some sid) newSid).2))) ∧
    ((handleMcpPost st none newSid).2.lookupSession newSid =
        some (handleMcpPost st none newSid).1) := by
  have hcreate : handleMcpPost st none newSid = st.createSession newSid := rfl
  have hlookup_created : ∀ s : ServerState,
      (s.createSession newSid).2.lookupSession newSid = some (s.createSession newSid).1 := by
    intro s
    simp [ServerState.createSession, ServerState.lookupSession]
  refine ⟨?_, ?_, ?_⟩
  · intro s hsid hfound
    simp [handleMcpPost, hsid, hfound]
  · intro hnone
    have hform : handleMcpPost st (some sid) newSid = st.createSession newSid := by
      by_cases hsid : sid = ""
      · simp [handleMcpPost, hsid]
      · simp [handleMcpPost, hsid, hnone]
    refine ⟨?_, ?_, ?_⟩
    · rw [hform]
      exact hlookup_created st
    · intro q hq
      rw [hform]
      intro hq2
      have := hfresh q hq
      rw [hq2] at this
      simp [ServerState.createSession] at this
    · rw [hform]
      simp [handleMcpPost, hn, hlookup_created st]
  · rw [hcreate]
    exact hlookup_created st

/-- Claim C4 witness: over a table holding session `"a"`, a request naming
`"a"` reuses it unchanged; a request naming the unknown `"b"` creates and
records a session under the minted identifier `"s1"` which a second request
then reuses. -/
theorem session_resolution_witness :
    ("s1" : String) ≠ "" ∧
    (∀ q ∈ ({table := [("a", ⟨0, 0⟩)], fresh := 1} : ServerState).table,
        q.2.transportId < 1) ∧
    handleMcpPost {table := [("a", ⟨0, 0⟩)], fresh := 1} (some "a") "s1" =
      (⟨0, 0⟩, {table := [("a", ⟨0, 0⟩)], fresh := 1}) ∧
    ((handleMcpPost {table := [("a", ⟨0, 0⟩)], fresh := 1} (some "b") "s1").2.lookupSession "s1" =
        some (handleMcpPost {table := [("a", ⟨0, 0⟩)], fresh := 1} (some "b") "s1").1) ∧
    (handleMcpPost
        (handleMcpPost {table := [("a", ⟨0, 0⟩)], fresh := 1} (some "b") "s1").2 (some "s1") "s2" =
      ((handleMcpPost {table := [("a", ⟨0, 0⟩)], fresh := 1} (some "b") "s1").1,
        (handleMcpPost {table := [("a", ⟨0, 0⟩)], fresh := 1} (some "b") "s1").2)) := by
  refine ⟨by decide, by decide, ?_, ?_, ?_⟩
  · exact (session_resolution {table := [("a", ⟨0, 0⟩)], fresh := 1} "a" "s1" "s2"
      (by decide) (by decide)).1 ⟨0, 0⟩ (by decide) (by decide)
  · exact ((session_resolution {table := [("a", ⟨0, 0⟩)], fresh := 1} "b" "s1" "s2"
      (by decide) (by decide)).2.1 (by decide)).1
  · exact ((session_resolution {table := [("a", ⟨0, 0⟩)], fresh := 1} "b" "s1" "s2"
      (by decide) (by decide)).2.1 (by decide)).2.2

/-! ## Driver-loop lemmas and claims -/

/-- Unfolding of one driver turn whose first model reply carries tool-call
requests: the assistant message recording the raw calls, the tool-result
messages, one re-query, and the plain assistant append of its content. -/
lemma runTurn_of_toolCalls (model : List Msg → Reply) (callTool : ToolCall → ToolResult)
    (messages : List Msg) (userInput : String)
    (h : (model (messages ++ [Msg.user userInput])).tool_calls ≠ []) :
    runTurn model callTool messages userInput =
      ⟨(((messages ++ [Msg.user userInput])
          ++ [Msg.assistantCalls "" (model (messages ++ [Msg.user userInput])).tool_calls])
          ++ (model (messages ++ [Msg.user userInput])).tool_calls.map (toolMsg callTool))
        ++ [Msg.assistant (model
              (((messages ++ [Msg.user userInput])
                ++ [Msg.assistantCalls "" (model (messages ++ [Msg.user userInput])).tool_calls])
                ++ (model (messages ++ [Msg.user userInput])).tool_calls.map
                    (toolMsg callTool))).content],
        [model (messages ++ [Msg.user userInput]),
          model (((messages ++ [Msg.user userInput])
            ++ [Msg.assistantCalls "" (model (messages ++ [Msg.user userInput])).tool_calls])
            ++ (model (messages ++ [Msg.user userInput])).tool_calls.map (toolMsg callTool))],
        (model (messages ++ [Msg.user userInput])).tool_calls⟩ := by
  simp [runTurn, h]

/-- Claim C2, counterexample: against the model that answers the follow-up
query with a further tool-call request, the second reply of the turn
carries `tcSecond` (id `"call-9"`), yet the turn's full transcript is just
four messages — no assistant message recording `[tcSecond]` and no
tool-result message keyed by its id (or name) ever appears; the reply's
content alone is appended.  So not every model reply carrying tool-call
requests is answered by tool-result messages. -/
theorem toolcall_batch_second_reply_counterexample :
    ((runTurn chattyModel okStubTool [] "hi").replies.map Reply.tool_calls =
      [[tcWithId], [tcSecond]]) ∧
    (runTurn chattyModel okStubTool [] "hi").messages =
      [Msg.user "hi", Msg.assistantCalls "" [tcWithId],
        Msg.tool "call-7" "ok", Msg.assistant ""] ∧
    Msg.assistantCalls "" [tcSecond] ∉ (runTurn chattyModel okStubTool [] "hi").messages ∧
    Msg.tool "call-9" "ok" ∉ (runTurn chattyModel okStubTool [] "hi").messages ∧
    Msg.tool "deleteFile" "ok" ∉ (runTurn chattyModel okStubTool [] "hi").messages := by
  decide

/-- Claim C2 (amended): when the first model reply of a user turn carries
the batch `tcs` (`N ≥ 1` requests), the driver appends one assistant
message holding the raw requests with empty content, then exactly `N`
tool-result messages in request order — each keyed by the request's `id`,
or its tool name when the `id` is absent — and only then submits the
transcript to the model again; that follow-up reply's content is then
appended as a plain assistant message with no tool-result messages after
it.  (A follow-up reply's own tool-call requests are left unanswered.) -/
theorem toolcall_batch_answered (model : List Msg → Reply) (callTool : ToolCall → ToolResult)
    (messages : List Msg) (userInput : String) (tcs : List ToolCall)
    (h : (model (messages ++ [Msg.user userInput])).tool_calls = tcs) (hne : tcs ≠ []) :
    ((runTurn model callTool messages userInput).messages =
      (((messages ++ [Msg.user userInput]) ++ [Msg.assistantCalls "" tcs])
          ++ tcs.map (toolMsg callTool))
        ++ [Msg.assistant (model (((messages ++ [Msg.user userInput])
            ++ [Msg.assistantCalls "" tcs]) ++ tcs.map (toolMsg callTool))).content]) ∧
    (tcs.map (toolMsg callTool)).length = tcs.length ∧
    tcs.map (toolMsg callTool) =
      tcs.map (fun tc =>
        Msg.tool (tc.id.getD tc.name) (concatText (callTool tc).content)) := by
  have h0 : (model (messages ++ [Msg.user userInput])).tool_calls ≠ [] := by
    rw [h]; exact hne
  refine ⟨?_, by simp, rfl⟩
  rw [runTurn_of_toolCalls model callTool messages userInput h0, h]

/-- Claim C2 witness: a two-request batch — the second without an `id` — is
answered by exactly two tool-result messages in order, the first keyed by
its `id` and the second by its tool name. -/
theorem toolcall_batch_answered_witness :
    (constModel2.tool_calls = [tcWithId, tcNoId] ∧ ([tcWithId, tcNoId] : List ToolCall) ≠ []) ∧
    (runTurn (fun _ => constModel2) okStubTool [] "hi").messages =
      ((([] ++ [Msg.user "hi"]) ++ [Msg.assistantCalls "" [tcWithId, tcNoId]])
          ++ [tcWithId, tcNoId].map (toolMsg okStubTool))
        ++ [Msg.assistant ((fun _ : List Msg => constModel2) ((([] ++ [Msg.user "hi"])
            ++ [Msg.assistantCalls "" [tcWithId, tcNoId]])
            ++ [tcWithId, tcNoId].map (toolMsg okStubTool))).content] ∧
    [tcWithId, tcNoId].map (toolMsg okStubTool) =
      [Msg.tool "call-7" "ok", Msg.tool "listFiles" "ok"] := by
  refine ⟨⟨rfl, by decide⟩, ?_, by decide⟩
  exact (toolcall_batch_answered (fun _ => constModel2) okStubTool [] "hi"
    [tcWithId, tcNoId] rfl (by decide)).1

/-- Claim C3: with tool calls routed through the registry dispatch, a batch
containing a request for an unrecognized tool still has every request
executed and answered — the unknown-tool request yields an error-flagged
result folded into its own tool message, and the transcript carries exactly
one tool message per request, in order, with no short-circuiting. -/
theorem batch_no_short_circuit (registry : List ToolEntry) (model : List Msg → Reply)
    (messages : List Msg) (userInput : String) (tcs : List ToolCall) (bad : ToolCall)
    (h : (model (messages ++ [Msg.user userInput])).tool_calls = tcs)
    (hbad : bad ∈ tcs)
    (hunknown : registry.find? (fun t => t.name == bad.name) = none) :
    ((runTurn model (callToolVia registry) messages userInput).executed = tcs) ∧
    ((callToolVia registry bad).isError = true) ∧
    ((runTurn model (callToolVia registry) messages userInput).messages =
      (((messages ++ [Msg.user userInput]) ++ [Msg.assistantCalls "" tcs])
          ++ tcs.map (toolMsg (callToolVia registry)))
        ++ [Msg.assistant (model (((messages ++ [Msg.user userInput])
            ++ [Msg.assistantCalls "" tcs])
            ++ tcs.map (toolMsg (callToolVia registry)))).content]) ∧
    (tcs.map (toolMsg (callToolVia registry))).length = tcs.length := by
  have hne : tcs ≠ [] := List.ne_nil_of_mem hbad
  have h0 : (model (messages ++ [Msg.user userInput])).tool_calls ≠ [] := by
    rw [h]; exact hne
  have hrun := runTurn_of_toolCalls model (callToolVia registry) messages userInput h0
  refine ⟨?_, ?_, ?_, by simp⟩
  · rw [hrun, h]
  · simp [callToolVia, dispatch, hunknown, errText]
  · rw [hrun, h]

/-- Claim C3 witness: the batch `[tcGhost, tcRead]` against the one-tool
registry — the unknown `ghostTool` call is answered with the error text and
the following `readFile` call still executes and is answered. -/
theorem batch_no_short_circuit_witness :
    ((ghostModel ([] ++ [Msg.user "go"])).tool_calls = [tcGhost, tcRead]) ∧
    tcGhost ∈ ([tcGhost, tcRead] : List ToolCall) ∧
    (fsRegistry.find? (fun t => t.name == tcGhost.name) = none) ∧
    ((runTurn ghostModel (callToolVia fsRegistry) [] "go").executed = [tcGhost, tcRead]) ∧
    ((callToolVia fsRegistry tcGhost).isError = true) ∧
    [tcGhost, tcRead].map (toolMsg (callToolVia fsRegistry)) =
      [Msg.tool "g1" "Unknown tool: ghostTool", Msg.tool "g2" "file-content"] := by
  refine ⟨rfl, by decide, rfl, ?_, ?_, by decide⟩
  · exact (batch_no_short_circuit fsRegistry ghostModel [] "go" [tcGhost, tcRead] tcGhost
      rfl (by decide) rfl).1
  · exact (batch_no_short_circuit fsRegistry ghostModel [] "go" [tcGhost, tcRead] tcGhost
      rfl (by decide) rfl).2.1

/-- Claim C1, counterexample: against a model endpoint that keeps emitting
tool-call requests, the driver's turn obtains exactly two replies, executes
only the first reply's batch, and ends by appending the second reply's
content as a plain assistant message — the second reply again contained a
tool-call request (`tcSecond`) that was never executed, so the loop does
not repeat until a plain answer is produced. -/
theorem single_reask_counterexample :
    ((runTurn chattyModel okStubTool [] "hi").replies.map Reply.tool_calls =
      [[tcWithId], [tcSecond]]) ∧
    ((runTurn chattyModel okStubTool [] "hi").executed = [tcWithId]) ∧
    tcSecond ∉ (runTurn chattyModel okStubTool [] "hi").executed ∧
    (runTurn chattyModel okStubTool [] "hi").messages.getLast? =
      some (Msg.assistant "") := by
  decide

/-- Claim C1 (amended): after a batch of tool-call requests has been
executed and answered, the driver re-queries the model exactly once per
user turn — two replies in total — executing only the first reply's batch,
and appends the second reply's content as a plain assistant message without
inspecting it for further tool-call requests; tool-call requests in that
second reply are not executed. -/
theorem single_reask (model : List Msg → Reply) (callTool : ToolCall → ToolResult)
    (messages : List Msg) (userInput : String)
    (h : (model (messages ++ [Msg.user userInput])).tool_calls ≠ []) :
    ((runTurn model callTool messages userInput).replies.length = 2) ∧
    ((runTurn model callTool messages userInput).executed =
      (model (messages ++ [Msg.user userInput])).tool_calls) ∧
    ((runTurn model callTool messages userInput).messages.getLast? =
      some (Msg.assistant (model (((messages ++ [Msg.user userInput])
          ++ [Msg.assistantCalls "" (model (messages ++ [Msg.user userInput])).tool_calls])
          ++ (model (messages ++ [Msg.user userInput])).tool_calls.map
              (toolMsg callTool))).content)) := by
  have hrun := runTurn_of_toolCalls model callTool messages userInput h
  refine ⟨?_, ?_, ?_⟩
  · rw [hrun]
    rfl
  · rw [hrun]
  · rw [hrun]
    exact List.getLast?_concat _

/-- Claim C1 witness: the amended single-re-ask behavior evaluated against
the always-tool-calling model endpoint. -/
theorem single_reask_witness :
    ((chattyModel ([] ++ [Msg.user "hi"])).tool_calls ≠ []) ∧
    ((runTurn chattyModel okStubTool [] "hi").replies.length = 2) ∧
    ((runTurn chattyModel okStubTool [] "hi").executed =
      (chattyModel ([] ++ [Msg.user "hi"])).tool_calls) := by
  refine ⟨by decide, ?_, ?_⟩
  · exact (single_reask chattyModel okStubTool [] "hi" (by decide)).1
  · exact (single_reask chattyModel okStubTool [] "hi" (by decide)).2.1

end McpFs
